import Mathlib

/-!
Verification development for the torbiz-desktop process-orchestration core
(src-tauri/src/petals.rs and src-tauri/src/wsl.rs).

The Rust code is shallowly embedded as pure Lean functions.  External
effects (script resolution, process spawning, WSL commands, hardware
probing, process wait results) are modelled as explicit environment
records supplied to each operation; the operations return the command
result, the updated session state, and a trace of the externally visible
actions (spawned processes, emitted events, kill commands).  A Rust
panic is modelled as the `none` case of an `Option` result.
-/

namespace Torbiz

/-- The three compile-time platform branches of the Rust source
(`#[cfg(target_os = "windows")]`, `#[cfg(target_os = "macos")]`, and the
fallback branch used on Linux). -/
inductive Platform
  | windows
  | macos
  | linux
deriving DecidableEq

/-- Embedding of `PetalsState` (petals.rs lines 18-25): the process
handle is reduced to its pid, the rest of the fields are carried
verbatim.  Mutex wrappers disappear because the embedding is a
sequential state-passing semantics. -/
structure PetalsState where
  process : Option Nat
  model_name : Option String
  node_token : Option String
  wsl_setup_complete : Bool
  macos_setup_complete : Bool
  seeder_logs : List String
deriving DecidableEq

/-- Embedding of `PetalsState::new` (petals.rs lines 33-42). -/
def PetalsState.new : PetalsState :=
  ⟨none, none, none, false, false, []⟩

/-- Result of a Tauri command returning `Result<String, String>`. -/
inductive CmdResult
  | ok (msg : String)
  | err (msg : String)
deriving DecidableEq

/-- Whether the list `pat` occurs at the head of `text`
(char-by-char comparison). -/
def charsStartWith : List Char → List Char → Bool
  | [], _ => true
  | _ :: _, [] => false
  | a :: as, b :: bs => a == b && charsStartWith as bs

/-- Whether the list `pat` occurs as a contiguous sublist of `text`,
at any position. -/
def charsContainSub (pat : List Char) : List Char → Bool
  | [] => charsStartWith pat []
  | c :: rest => charsStartWith pat (c :: rest) || charsContainSub pat rest

/-- Embedding of Rust `str::contains(pat)`: substring containment. -/
def containsSub (s pat : String) : Bool :=
  charsContainSub pat.data s.data

/-- Embedding of Rust `str::to_lowercase()` for the ASCII vendor strings
this code matches against (`Char.toLower` lowercases ASCII letters). -/
def toLowerStr (s : String) : String :=
  ⟨s.data.map Char.toLower⟩

/-- UTF-8 byte length of a char list, summing `Char.utf8Size`; matches
Rust `str::len()`. -/
def utf8LenAux : List Char → Nat
  | [] => 0
  | c :: cs => c.utf8Size + utf8LenAux cs

/-- UTF-8 byte length of a string, as Rust `str::len()`. -/
def utf8Len (s : String) : Nat :=
  utf8LenAux s.data

/-- Whether byte offset `i` is a character boundary of the char list
(offset 0 is always a boundary; otherwise the first char must fit and
the remaining offset must be a boundary of the rest).  Matches Rust
`str::is_char_boundary` including the requirement `i <= len`. -/
def charBoundaryAux : List Char → Nat → Bool
  | _, 0 => true
  | [], _ + 1 => false
  | c :: cs, n + 1 =>
    if c.utf8Size ≤ n + 1 then charBoundaryAux cs (n + 1 - c.utf8Size) else false

/-- Whether byte offset `i` is a character boundary of `s`, as Rust
`str::is_char_boundary(i)`; Rust `&s[..i]` panics exactly when this is
false. -/
def isCharBoundary (s : String) (i : Nat) : Bool :=
  charBoundaryAux s.data i

/-- The chars of `l` occupying the first `n` UTF-8 bytes (used only at
valid boundaries). -/
def takeBytesAux : List Char → Nat → List Char
  | _, 0 => []
  | [], _ + 1 => []
  | c :: cs, n + 1 =>
    if c.utf8Size ≤ n + 1 then c :: takeBytesAux cs (n + 1 - c.utf8Size) else []

/-- Embedding of Rust `&s[..n]` at a valid boundary: the first `n`
UTF-8 bytes of `s`. -/
def takeBytes (s : String) (n : Nat) : String :=
  ⟨takeBytesAux s.data n⟩

/-! ## Stdout line classification (petals.rs lines 169-219, 313-359,
532-579)

Each spawned seeder gets a reader thread that classifies every stdout
line with substring tests and emits zero or more events.  The Windows
branch additionally recognises the time-sync error; the macOS and Linux
branches use the identical remaining rule set. -/

/-- One emitted UI event of the seeder readers. -/
inductive PetalsEvent
  | progress (stage message : String)
  | log (line : String)
  | error (message : String)
  | success (message : String)
deriving DecidableEq

/-- `is_error` flag (petals.rs line 173): contains `[ERROR]` but not
`triton`. -/
def isErrorLine (line : String) : Bool :=
  containsSub line "[ERROR]" && !containsSub line "triton"

/-- `is_time_error` flag (petals.rs line 174), Windows branch only. -/
def isTimeErrorLine (line : String) : Bool :=
  containsSub line "local time must be within" || containsSub line "TIME SYNC ERROR"

/-- `is_success` flag (petals.rs lines 175-176); Rust `&&` binds
tighter than `||`. -/
def isSuccessLine (line : String) : Bool :=
  containsSub line "✓✓✓ MODEL LOADED SUCCESSFULLY ✓✓✓" ||
    (containsSub line "Loaded" && containsSub line "block")

/-- `is_connecting` flag (petals.rs line 177). -/
def isConnectingLine (line : String) : Bool :=
  containsSub line "Connecting to" || containsSub line "DHT"

/-- `is_announced` flag (petals.rs line 178). -/
def isAnnouncedLine (line : String) : Bool :=
  containsSub line "Announced that blocks" && containsSub line "joining"

/-- `is_loading` flag (petals.rs line 179). -/
def isLoadingLine (line : String) : Bool :=
  containsSub line "Loading" || containsSub line "Measuring"

/-- The `petals_progress` events emitted for one line, in source order
(petals.rs lines 181-198). -/
def progressEvents (line : String) : List PetalsEvent :=
  (if isConnectingLine line then
    [.progress "connecting" "Connecting to Petals network..."] else []) ++
  (if isLoadingLine line then
    [.progress "loading" "Loading model blocks..."] else []) ++
  (if isAnnouncedLine line then
    [.progress "announcing" "Announcing availability to network..."] else [])

/-- The clock-desync remediation message (petals.rs line 212). -/
def timeSyncErrorMsg : String :=
  "TIME SYNC ERROR: Your system clock is out of sync. Please restart the app and try again."

/-- Events emitted for one stdout line by the Windows (WSL) reader
thread (petals.rs lines 169-219): progress events, then the verbatim
`petals_log`, then the time-sync error or the generic error, then
success. -/
def classifyStdoutWindows (line : String) : List PetalsEvent :=
  progressEvents line ++ [.log line] ++
  (if isTimeErrorLine line then [.error timeSyncErrorMsg]
   else if isErrorLine line then [.error line] else []) ++
  (if isSuccessLine line then [.success "Model loaded successfully"] else [])

/-- Events emitted for one stdout line by the macOS reader thread
(petals.rs lines 313-359) and the Linux reader thread (petals.rs lines
532-579), which are textually identical: like the Windows reader but
with no time-sync rule. -/
def classifyStdoutMacLinux (line : String) : List PetalsEvent :=
  progressEvents line ++ [.log line] ++
  (if isErrorLine line then [.error line] else []) ++
  (if isSuccessLine line then [.success "Model loaded successfully"] else [])

/-! ## Log ring buffer (petals.rs lines 200-206, 343-349, 408-415,
562-568) -/

/-- One append to the bounded log buffer: `push(line)` followed by
`if len > cap { remove(0) }`. -/
def pushLog (cap : Nat) (logs : List String) (line : String) : List String :=
  if cap < (logs ++ [line]).length then (logs ++ [line]).tail else logs ++ [line]

/-- The log-buffer update of every stdout reader thread (capacity 200;
petals.rs lines 200-206, 343-349, 562-568). -/
def seederStdoutLogPush (logs : List String) (line : String) : List String :=
  pushLog 200 logs line

/-- The log-buffer update of the macOS stderr reader thread: the line is
stored with a `[STDERR] ` marker and capacity 500 (petals.rs lines
405-415). -/
def seederStderrLogPush (logs : List String) (line : String) : List String :=
  pushLog 500 logs ("[STDERR] " ++ line)

/-! ## Device selection (petals.rs lines 101-117 and 484-500, identical
in the Windows and Linux branches) -/

/-- Whether one GPU vendor string matches the NVIDIA keyword set after
lowercasing (petals.rs lines 105-111). -/
def gpuMatchesNvidia (gpu : String) : Bool :=
  let l := toLowerStr gpu
  containsSub l "nvidia" || containsSub l "geforce" ||
    containsSub l "rtx" || containsSub l "gtx"

/-- `has_nvidia_gpu` (petals.rs lines 101-115): `none` models
`get_hardware_info()` returning `Err(_)`, which yields `false`. -/
def hasNvidiaGpu (gpuInfo : Option (List String)) : Bool :=
  match gpuInfo with
  | some gpus => gpus.any gpuMatchesNvidia
  | none => false

/-- The device token passed to the worker (petals.rs lines 117, 500). -/
def selectDevice (gpuInfo : Option (List String)) : String :=
  if hasNvidiaGpu gpuInfo then "cuda" else "cpu"

/-! ## `start_petals_seeder` (petals.rs lines 53-603)

External effects are supplied through `StartEnv`: whether script-path
resolution succeeds, whether the bundled script exists, whether copying
it into WSL succeeds, the `get_hardware_info()` result (`none` models
`Err(_)`), whether `spawn()` succeeds, and the pid of the new child.
The WSL time-resync (`wsl --terminate` plus sleep) and the
`bitsandbytes` uninstall are fire-and-forget commands whose results the
source ignores, so they do not appear in the environment. -/

structure StartEnv where
  resolveOk : Bool
  scriptExists : Bool
  copyScriptOk : Bool
  gpuInfo : Option (List String)
  spawnOk : Bool
  newPid : Nat
deriving DecidableEq

/-- The argument vector handed to the spawned worker, as far as the
claims are concerned: the pid, the model id, the token, the device
token (`none` on macOS, where no `--device` argument is passed), and
the optional HuggingFace token. -/
structure SpawnedWorker where
  pid : Nat
  model_name : String
  node_token : String
  device : Option String
  hf_token : Option String
deriving DecidableEq

/-- Outcome of `start_petals_seeder`: the command result, the session
state after the call, and the process it spawned if any. -/
structure StartOutcome where
  result : CmdResult
  state : PetalsState
  spawned : Option SpawnedWorker
deriving DecidableEq

/-- Error message at petals.rs line 64. -/
def alreadyRunningMsg : String := "Petals seeder is already running."

/-- Error message at petals.rs line 76. -/
def wslNotSetupMsg : String :=
  "WSL environment not set up. Please complete WSL setup first."

/-- Error message at petals.rs line 253. -/
def macosNotSetupMsg : String :=
  "macOS environment not set up. Please complete setup first by clicking the Share GPU button."

/-- Commit of the three state fields after a successful spawn
(petals.rs lines 224-233, 447-456, 583-592).  The log buffer is not
touched on start. -/
def commitStart (st : PetalsState) (pid : Nat) (model_name node_token : String) :
    PetalsState :=
  { st with process := some pid, model_name := some model_name,
            node_token := some node_token }

/-- Embedding of `start_petals_seeder` (petals.rs lines 53-603).  The
already-running guard (lines 61-66) precedes every platform branch; the
Windows branch checks `wsl_setup_complete` (lines 68-77), the macOS
branch checks `macos_setup_complete` (lines 245-254), and the Linux
branch (lines 468-602) performs no provisioning check.  Error paths
leave the state untouched and spawn nothing. -/
def startPetalsSeeder (plat : Platform) (env : StartEnv)
    (model_name node_token : String) (hf_token : Option String)
    (st : PetalsState) : StartOutcome :=
  if st.process.isSome then
    ⟨.err alreadyRunningMsg, st, none⟩
  else
    match plat with
    | .windows =>
      if !st.wsl_setup_complete then
        ⟨.err wslNotSetupMsg, st, none⟩
      else if !env.resolveOk then
        ⟨.err "Failed to resolve script path", st, none⟩
      else if !env.scriptExists then
        ⟨.err "Python script not found", st, none⟩
      else if !env.copyScriptOk then
        ⟨.err "Failed to copy script to WSL", st, none⟩
      else if !env.spawnOk then
        ⟨.err "Failed to spawn Petals in WSL", st, none⟩
      else
        let device := selectDevice env.gpuInfo
        ⟨.ok ("Petals seeder started in WSL for model: " ++ model_name),
         commitStart st env.newPid model_name node_token,
         some ⟨env.newPid, model_name, node_token, some device, hf_token⟩⟩
    | .macos =>
      if !st.macos_setup_complete then
        ⟨.err macosNotSetupMsg, st, none⟩
      else if !env.resolveOk then
        ⟨.err "Failed to resolve resource path", st, none⟩
      else if !env.scriptExists then
        ⟨.err "Python script not found", st, none⟩
      else if !env.spawnOk then
        ⟨.err "Failed to spawn Python process", st, none⟩
      else
        ⟨.ok ("Petals seeder started for model: " ++ model_name),
         commitStart st env.newPid model_name node_token,
         some ⟨env.newPid, model_name, node_token, none, hf_token⟩⟩
    | .linux =>
      if !env.resolveOk then
        ⟨.err "Failed to resolve resource path", st, none⟩
      else if !env.scriptExists then
        ⟨.err "Python script not found", st, none⟩
      else if !env.spawnOk then
        ⟨.err "Failed to spawn Python process", st, none⟩
      else
        let device := selectDevice env.gpuInfo
        ⟨.ok ("Petals seeder started for model: " ++ model_name),
         commitStart st env.newPid model_name node_token,
         some ⟨env.newPid, model_name, node_token, some device, hf_token⟩⟩

/-! ## `stop_petals_seeder` (petals.rs lines 605-750) -/

/-- Result of the `child.try_wait()` polling loop seen from the outside:
the child exits within the 5000-second window, the window elapses, or
`try_wait` itself errors. -/
inductive WaitOutcome
  | exited
  | timedOut
  | waitErr
deriving DecidableEq

/-- Externally visible actions of `stop_petals_seeder`, in execution
order: SIGTERM to the child (Unix branch); `pkill -TERM` / `pgrep` /
`pkill -9` against the inner WSL process matched by the first 12 bytes
of the token (Windows branch); `child.kill()` on the outer handle. -/
inductive StopAction
  | sigterm (pid : Nat)
  | pkillTerm (tokenFrag : String)
  | pgrepCheck (tokenFrag : String)
  | pkillForce (tokenFrag : String)
  | killWrapper (pid : Nat)
deriving DecidableEq

/-- External effects consumed by `stop_petals_seeder`: the captured
stdout of the two `pgrep` probes (`none` models
`execute_wsl_command` returning `Err(_)`) and the wait-loop outcome. -/
structure StopEnv where
  pgrepAfterTerm : Option String
  pgrepVerify : Option String
  waitOutcome : WaitOutcome
deriving DecidableEq

/-- Outcome of `stop_petals_seeder` when it does not panic. -/
structure StopOutcome where
  result : CmdResult
  state : PetalsState
  actions : List StopAction
deriving DecidableEq

/-- Rust `output.trim().is_empty()` on a char list. -/
def trimmedEmpty (s : String) : Bool :=
  s.data.all Char.isWhitespace

/-- Error message at petals.rs line 748. -/
def notRunningMsg : String := "No Petals seeder process is running"

/-- Success message at petals.rs line 746. -/
def stoppedMsg : String := "Petals seeder stopped successfully"

/-- The graceful-shutdown block of the Windows branch (petals.rs lines
632-665): `pkill -TERM` against the inner process matched by
`&token[..12]`, a `pgrep` re-check, and a `pkill -9` escalation when
the check reports a survivor. -/
def wslGracefulStop (frag : String) (pgrepOut : Option String) : List StopAction :=
  [.pkillTerm frag, .pgrepCheck frag] ++
  (match pgrepOut with
   | some out => if !trimmedEmpty out then [.pkillForce frag] else []
   | none => [])

/-- The post-wait verification block of the Windows branch (petals.rs
lines 701-723): a second `pgrep` by the same token fragment and a
forced `pkill -9` if the inner process reappeared. -/
def wslVerifyStop (frag : String) (pgrepOut : Option String) : List StopAction :=
  [.pgrepCheck frag] ++
  (match pgrepOut with
   | some out => if !trimmedEmpty out then [.pkillForce frag] else []
   | none => [])

/-- The extra `child.kill()` calls of the wait loop (petals.rs lines
678-699): none when the child exits in time, one on timeout and one on
a wait error. -/
def waitLoopActions (pid : Nat) : WaitOutcome → List StopAction
  | .exited => []
  | .timedOut => [.killWrapper pid]
  | .waitErr => [.killWrapper pid]

/-- Embedding of `stop_petals_seeder` (petals.rs lines 605-750).  With
no process the call fails with `notRunningMsg` and touches nothing.
Otherwise the Windows branch slices `&token[..12]` (lines 636-639,
648-651, 656-659, 705-707, 713-715); when byte offset 12 is not a
character boundary of the stored token this is a Rust panic, modelled
as `none`.  Every non-panicking stop clears the process, model, token
and log-buffer fields and reports success (lines 725-746), regardless
of the wait outcome. -/
def stopPetalsSeeder (plat : Platform) (env : StopEnv) (st : PetalsState) :
    Option StopOutcome :=
  match st.process with
  | none => some ⟨.err notRunningMsg, st, []⟩
  | some pid =>
    let cleared : PetalsState :=
      { st with process := none, model_name := none, node_token := none,
                seeder_logs := [] }
    match plat with
    | .windows =>
      match st.node_token with
      | some tok =>
        if isCharBoundary tok 12 then
          let frag := takeBytes tok 12
          some ⟨.ok stoppedMsg, cleared,
            wslGracefulStop frag env.pgrepAfterTerm ++ [.killWrapper pid] ++
            waitLoopActions pid env.waitOutcome ++
            wslVerifyStop frag env.pgrepVerify⟩
        else
          none
      | none =>
        some ⟨.ok stoppedMsg, cleared,
          [.killWrapper pid] ++ waitLoopActions pid env.waitOutcome⟩
    | _ =>
      some ⟨.ok stoppedMsg, cleared,
        [.sigterm pid] ++ waitLoopActions pid env.waitOutcome⟩

/-! ## `is_petals_seeder_running` (petals.rs lines 752-775) -/

/-- Result of the single `try_wait` poll inside
`is_petals_seeder_running`. -/
inductive TryWait
  | exited
  | stillRunning
  | waitErr
deriving DecidableEq

/-- Outcome of `is_petals_seeder_running`. -/
structure RunningOutcome where
  running : Bool
  state : PetalsState
deriving DecidableEq

/-- Embedding of `is_petals_seeder_running` (petals.rs lines 752-775):
no handle means `false`; with a handle, a completed `try_wait` lazily
clears the process, model and token fields (not the log buffer) and
returns `false`; a still-running or erroring poll returns `true` and
changes nothing. -/
def isPetalsSeederRunning (tw : TryWait) (st : PetalsState) : RunningOutcome :=
  match st.process with
  | none => ⟨false, st⟩
  | some _ =>
    match tw with
    | .exited =>
      ⟨false, { st with process := none, model_name := none, node_token := none }⟩
    | .stillRunning => ⟨true, st⟩
    | .waitErr => ⟨true, st⟩

/-! ## WSL provisioning workflow (wsl.rs lines 327-433)

`setup_wsl_environment` (hosting profile) and
`setup_wsl_environment_client` (inference-only profile) share the
structure: check WSL, install it and fail with the restart message if
absent, check and install Python, check and install the Petals library
set, configure, emit `complete`.  The probes and installers are
Capability-Probe wrappers around `execute_wsl_command`; their results
come in through `SetupEnv`. -/

/-- One `wsl_setup_progress` event (`SetupProgress`, wsl.rs lines
13-18). -/
structure SetupProgress where
  stage : String
  message : String
  progress : Nat
deriving DecidableEq

/-- The install steps a workflow run performs. -/
inductive SetupAction
  | installWsl
  | installPython
  | installPetals
  | installPetalsClient
deriving DecidableEq

/-- External effects consumed by the two setup workflows: the result of
each capability probe and of each installer.  `installWslSpawn = none`
models the `wsl --install` command failing to launch;
`some (ok, stderr)` models it completing with the given success flag
and captured stderr (wsl.rs lines 33-50). -/
structure SetupEnv where
  wslInstalled : Bool
  installWslSpawn : Option (Bool × String)
  installWslSpawnErr : String
  pythonOk : Bool
  installPythonOk : Bool
  installPythonErr : String
  petalsOk : Bool
  installPetalsOk : Bool
  installPetalsErr : String
  petalsClientOk : Bool
  installPetalsClientOk : Bool
  installPetalsClientErr : String
deriving DecidableEq

/-- Embedding of `install_wsl` (wsl.rs lines 33-50): a spawn failure
and a non-zero exit each produce their own error text; neither mentions
a restart. -/
def installWsl (env : SetupEnv) : Except String Unit :=
  match env.installWslSpawn with
  | none => .error ("Failed to execute WSL install command: " ++ env.installWslSpawnErr)
  | some (ok, stderr) =>
    if ok then .ok () else .error ("WSL installation failed: " ++ stderr)

/-- The terminal error returned after a successful first-time WSL
install (wsl.rs lines 353 and 407). -/
def restartRequiredMsg : String :=
  "WSL has been installed but requires a system restart. Please restart your computer and try again."

/-- Outcome of a setup workflow: the command result, the
`wsl_setup_progress` events in emission order, the install steps
performed, and the (never modified) session state. -/
structure SetupOutcome where
  result : CmdResult
  events : List SetupProgress
  actions : List SetupAction
  state : PetalsState
deriving DecidableEq

/-- The progress events shared by both workflows up to the WSL check
(wsl.rs lines 347, 401). -/
def checkingWslEvent : SetupProgress :=
  ⟨"checking_wsl",
   "Checking WSL installation... (Terminal windows may open/close - this is normal)", 10⟩

/-- wsl.rs lines 349, 403. -/
def installingWslEvent : SetupProgress :=
  ⟨"installing_wsl",
   "Installing WSL (this may take a few minutes). Terminal windows may appear - please don\x27t close them.", 20⟩

/-- wsl.rs lines 352, 406. -/
def wslInstalledEvent : SetupProgress :=
  ⟨"wsl_installed", "WSL installed. System restart may be required.", 40⟩

/-- wsl.rs lines 356, 410. -/
def checkingPythonEvent : SetupProgress :=
  ⟨"checking_python",
   "Checking Python in WSL... (Terminal windows may flash - this is normal)", 50⟩

/-- wsl.rs lines 358, 412. -/
def installingPythonEvent : SetupProgress :=
  ⟨"installing_python",
   "Installing Python in WSL... Please wait, terminal windows may appear.", 60⟩

/-- The Petals library stage onward, shared by both workflows (wsl.rs
lines 362-377 and 416-431): probe the library set, install it when the
probe fails, then the configure stage and the `complete` event.  `evs`
and `acts` are the events and install steps accumulated so far. -/
def setupPetalsStage
    (checkingPetalsEvent installingPetalsEvent : SetupProgress)
    (petalsOk installOk : Bool) (installErr : String)
    (installAct : SetupAction)
    (configuringEvent completeEvent : SetupProgress) (okMsg : String)
    (st : PetalsState) (evs : List SetupProgress) (acts : List SetupAction) :
    SetupOutcome :=
  let e3 := evs ++ [checkingPetalsEvent]
  if !petalsOk then
    let e4 := e3 ++ [installingPetalsEvent]
    if !installOk then
      ⟨.err installErr, e4, acts ++ [installAct], st⟩
    else
      ⟨.ok okMsg, e4 ++ [configuringEvent, completeEvent],
       acts ++ [installAct], st⟩
  else
    ⟨.ok okMsg, e3 ++ [configuringEvent, completeEvent], acts, st⟩

/-- Shared tail of both workflows after the WSL stage has passed:
Python stage, then the given Petals stage, then configuration and the
`complete` event (wsl.rs lines 356-377 and 410-431).  The Petals stage
is passed in because the two profiles probe and install different
library sets. -/
def setupTail (env : SetupEnv)
    (checkingPetalsEvent installingPetalsEvent : SetupProgress)
    (petalsOk installOk : Bool) (installErr : String)
    (installAct : SetupAction)
    (configuringEvent completeEvent : SetupProgress) (okMsg : String)
    (st : PetalsState) : SetupOutcome :=
  let e1 := [checkingWslEvent, checkingPythonEvent]
  if !env.pythonOk then
    let e2 := e1 ++ [installingPythonEvent]
    if !env.installPythonOk then
      ⟨.err env.installPythonErr, e2, [.installPython], st⟩
    else
      setupPetalsStage checkingPetalsEvent installingPetalsEvent petalsOk
        installOk installErr installAct configuringEvent completeEvent okMsg st
        e2 [SetupAction.installPython]
  else
    setupPetalsStage checkingPetalsEvent installingPetalsEvent petalsOk
      installOk installErr installAct configuringEvent completeEvent okMsg st
      e1 []

/-- Embedding of `setup_wsl_environment` (wsl.rs lines 327-379), the
hosting profile, on the Windows branch.  The command never reads or
writes `PetalsState`; the state is threaded through unchanged so the
theorems can say so.  When WSL is absent, `install_wsl` is run once and
the workflow terminates with an error either way: the restart-required
message on success, the install error on failure (lines 348-354). -/
def setupWslEnvironment (env : SetupEnv) (st : PetalsState) : SetupOutcome :=
  if !env.wslInstalled then
    match installWsl env with
    | .error msg =>
      ⟨.err msg, [checkingWslEvent, installingWslEvent], [.installWsl], st⟩
    | .ok _ =>
      ⟨.err restartRequiredMsg,
       [checkingWslEvent, installingWslEvent, wslInstalledEvent], [.installWsl], st⟩
  else
    setupTail env
      ⟨"checking_petals",
       "Checking Petals library... (Don\x27t close any terminal windows that appear)", 70⟩
      ⟨"installing_petals",
       "Installing Petals (~3GB download, 5-10 min). Terminal windows will open/close automatically - please wait...", 80⟩
      env.petalsOk env.installPetalsOk env.installPetalsErr .installPetals
      ⟨"configuring_wsl", "Configuring time synchronization...", 90⟩
      ⟨"complete", "WSL environment setup complete! You can now share your GPU.", 100⟩
      "WSL environment is ready for Petals" st

/-- Embedding of `setup_wsl_environment_client` (wsl.rs lines 381-433),
the inference-only profile, identical in shape but probing and
installing the client library set. -/
def setupWslEnvironmentClient (env : SetupEnv) (st : PetalsState) : SetupOutcome :=
  if !env.wslInstalled then
    match installWsl env with
    | .error msg =>
      ⟨.err msg, [checkingWslEvent, installingWslEvent], [.installWsl], st⟩
    | .ok _ =>
      ⟨.err restartRequiredMsg,
       [checkingWslEvent, installingWslEvent, wslInstalledEvent], [.installWsl], st⟩
  else
    setupTail env
      ⟨"checking_petals",
       "Checking Petals library for inference... (Don\x27t close any terminal windows that appear)", 70⟩
      ⟨"installing_petals", "Installing Petals for inference (minimal dependencies)...", 80⟩
      env.petalsClientOk env.installPetalsClientOk env.installPetalsClientErr
      .installPetalsClient
      ⟨"configuring_wsl", "Configuring time synchronization...", 90⟩
      ⟨"complete", "WSL environment setup complete! You can now use Direct Mode.", 100⟩
      "WSL environment is ready for Petals inference" st

/-! ## `run_petals_inference` / `stop_petals_inference` (petals.rs
lines 1039-1284)

`InferenceState` (petals.rs lines 28-30) is just the optional child
handle, modelled by its pid. -/

/-- External effects consumed by `run_petals_inference`: script
resolution and existence, the Windows-only script read/copy/chmod
steps, spawn success, and the new pid. -/
structure InferenceEnv where
  resolveOk : Bool
  scriptExists : Bool
  readScriptOk : Bool
  copyOk : Bool
  chmodOk : Bool
  spawnOk : Bool
  newPid : Nat
deriving DecidableEq

/-- Externally visible process actions of the inference runner, in
execution order. -/
inductive InfAction
  | killProc (pid : Nat)
  | waitProc (pid : Nat)
  | spawnProc (pid : Nat)
  | attachStdout (pid : Nat)
deriving DecidableEq

/-- Outcome of an inference-runner command: the command result, the
stored handle afterwards, and the action trace. -/
structure InfOutcome where
  result : CmdResult
  state : Option Nat
  actions : List InfAction
deriving DecidableEq

/-- The supersede block at the top of `run_petals_inference` (petals.rs
lines 1072-1080): `take()` the stored handle and, if present, `kill()`
then `wait()` it. -/
def supersedeActions : Option Nat → List InfAction
  | some pid => [.killProc pid, .waitProc pid]
  | none => []

/-- Embedding of `run_petals_inference` (petals.rs lines 1064-1284).
Whatever the platform branch does afterwards, the previous process has
already been taken, killed and reaped; a successful spawn attaches a
reader to the new stdout and stores the new handle (lines 1119-1133,
1211-1225, 1266-1281); every error path leaves the handle empty. -/
def runPetalsInference (plat : Platform) (env : InferenceEnv)
    (st : Option Nat) : InfOutcome :=
  let pre := supersedeActions st
  let success : InfOutcome :=
    ⟨.ok "Inference started", some env.newPid,
     pre ++ [.spawnProc env.newPid, .attachStdout env.newPid]⟩
  match plat with
  | .macos =>
    if !env.resolveOk then ⟨.err "Failed to resolve resource path", none, pre⟩
    else if !env.scriptExists then ⟨.err "Python script not found", none, pre⟩
    else if !env.spawnOk then ⟨.err "Failed to spawn inference process", none, pre⟩
    else success
  | .windows =>
    if !env.resolveOk then ⟨.err "Failed to resolve script path", none, pre⟩
    else if !env.scriptExists then ⟨.err "Python script not found", none, pre⟩
    else if !env.readScriptOk then ⟨.err "Failed to read script", none, pre⟩
    else if !env.copyOk then ⟨.err "Failed to copy script to WSL", none, pre⟩
    else if !env.chmodOk then ⟨.err "Failed to chmod script", none, pre⟩
    else if !env.spawnOk then ⟨.err "Failed to spawn inference process", none, pre⟩
    else success
  | .linux =>
    if !env.resolveOk then ⟨.err "Failed to resolve resource path", none, pre⟩
    else if !env.scriptExists then ⟨.err "Python script not found", none, pre⟩
    else if !env.spawnOk then ⟨.err "Failed to spawn inference process", none, pre⟩
    else success

/-- Embedding of `stop_petals_inference` (petals.rs lines 1039-1062):
`take()` the handle; kill and reap it when present (`killOk = false`
models `child.kill()` failing). -/
def stopPetalsInference (killOk : Bool) (st : Option Nat) : InfOutcome :=
  match st with
  | some pid =>
    if killOk then
      ⟨.ok "Inference process stopped.", none, [.killProc pid, .waitProc pid]⟩
    else
      ⟨.err "Failed to stop inference process", none, [.killProc pid]⟩
  | none => ⟨.ok "No inference process was running.", none, []⟩

/-! ## Derived predicates used in theorem statements -/

/-- The session-state invariant of spec section 3: the model id and the
credential are present exactly when the worker handle is. -/
def stateInv (st : PetalsState) : Prop :=
  st.model_name.isSome = st.process.isSome ∧
    st.node_token.isSome = st.process.isSome

/-- Whether a command result is an error. -/
def isErr : CmdResult → Bool
  | .ok _ => false
  | .err _ => true

/-- Whether a workflow outcome emitted no event with stage
`complete`. -/
def noCompleteEvent (o : SetupOutcome) : Bool :=
  o.events.all (fun ev => ev.stage != "complete")

/-- Whether a non-panicking stop outcome issued a `pkill -TERM` against
the given command-line fragment. -/
def stopUsesFrag (o : Option StopOutcome) (frag : String) : Bool :=
  match o with
  | some out => out.actions.contains (StopAction.pkillTerm frag)
  | none => false

/-- Whether every success-dependent step of the inference environment
succeeds. -/
def infEnvOk (e : InferenceEnv) : Bool :=
  e.resolveOk && e.scriptExists && e.readScriptOk && e.copyOk &&
    e.chmodOk && e.spawnOk

/-! ## Helper lemmas -/

/-- One `pushLog` append never grows the buffer past the capacity. -/
theorem pushLog_length_le (cap : Nat) (logs : List String) (line : String)
    (h : logs.length ≤ cap) : (pushLog cap logs line).length ≤ cap := by
  unfold pushLog
  split
  · simp only [List.length_tail, List.length_append, List.length_singleton]
    omega
  · rename_i hlt
    simp only [List.length_append, List.length_singleton] at *
    omega

/-- While the buffer stays within capacity, folding `pushLog` is plain
appending. -/
theorem foldl_pushLog_no_evict (cap : Nat) :
    ∀ (ls logs : List String), logs.length + ls.length ≤ cap →
      List.foldl (pushLog cap) logs ls = logs ++ ls := by
  intro ls
  induction ls with
  | nil => intro logs _; simp
  | cons a tl ih =>
    intro logs h
    rw [List.foldl_cons]
    have hpush : pushLog cap logs a = logs ++ [a] := by
      unfold pushLog
      rw [if_neg]
      simp only [List.length_append, List.length_singleton, not_lt]
      simp at h
      omega
    rw [hpush, ih (logs ++ [a])]
    · simp
    · simp at h ⊢
      omega

/-- Folding `pushLog` over one line more than the capacity, starting
empty, drops exactly the oldest line. -/
theorem foldl_pushLog_evict_one (cap : Nat) (ls : List String)
    (h : ls.length = cap + 1) :
    List.foldl (pushLog cap) [] ls = ls.tail := by
  rcases List.eq_nil_or_concat ls with rfl | ⟨front, b, rfl⟩
  · simp at h
  · rw [List.concat_eq_append] at h ⊢
    have hfront : front.length = cap := by
      simp at h
      omega
    rw [List.foldl_append, foldl_pushLog_no_evict cap front []]
    · rw [List.foldl_cons, List.foldl_nil, List.nil_append]
      unfold pushLog
      rw [if_pos]
      simp [hfront]
    · simp [hfront]

/-- A byte offset past the total UTF-8 length is never a character
boundary. -/
theorem charBoundaryAux_false_of_short :
    ∀ (l : List Char) (n : Nat), utf8LenAux l < n → charBoundaryAux l n = false := by
  intro l
  induction l with
  | nil =>
    intro n h
    cases n with
    | zero => simp [utf8LenAux] at h
    | succ m => rfl
  | cons c cs ih =>
    intro n h
    cases n with
    | zero => omega
    | succ m =>
      unfold charBoundaryAux
      split
      · apply ih
        unfold utf8LenAux at h
        omega
      · rfl

/-- The post-spawn session state of a successful start satisfies the
invariant by construction. -/
theorem stateInv_commitStart (st : PetalsState) (pid : Nat) (m t : String) :
    stateInv (commitStart st pid m t) := by
  simp [stateInv, commitStart]

/-- The start operation either leaves the state alone or commits the
spawned worker. -/
theorem startState_cases (plat : Platform) (env : StartEnv)
    (m t : String) (hf : Option String) (st : PetalsState) :
    (startPetalsSeeder plat env m t hf st).state = st ∨
    (startPetalsSeeder plat env m t hf st).state = commitStart st env.newPid m t := by
  unfold startPetalsSeeder
  split
  · left; rfl
  · cases plat <;> (repeat' split) <;> first | (left; rfl) | (right; rfl)

/-- A non-panicking stop outcome carries either the untouched state (the
not-running error path) or the fully cleared state. -/
theorem stopState_cases (plat : Platform) (env : StopEnv) (st : PetalsState)
    (out : StopOutcome) (h : stopPetalsSeeder plat env st = some out) :
    out.state = st ∨
    out.state = { st with process := none, model_name := none,
                          node_token := none, seeder_logs := [] } := by
  unfold stopPetalsSeeder at h
  cases hp : st.process with
  | none =>
    rw [hp] at h
    simp at h
    rw [← h]
    left; rfl
  | some pid =>
    rw [hp] at h
    cases plat with
    | windows =>
      cases ht : st.node_token with
      | none =>
        rw [ht] at h
        simp at h
        rw [← h]
        right; rfl
      | some tok =>
        rw [ht] at h
        simp only at h
        split at h
        · simp at h
          rw [← h]
          right; rfl
        · simp at h
    | macos =>
      simp at h
      rw [← h]
      right; rfl
    | linux =>
      simp at h
      rw [← h]
      right; rfl

/-! ## Claim theorems -/

/-- Claim C1: a `start_petals_seeder` call made while a worker handle
is already stored returns the already-running error, spawns nothing,
and leaves the whole session state (handle, model id, credential, log
buffer, flags) untouched, on every platform. -/
theorem start_already_running (plat : Platform) (env : StartEnv)
    (m t : String) (hf : Option String) (st : PetalsState) (pid : Nat)
    (h : st.process = some pid) :
    startPetalsSeeder plat env m t hf st = ⟨.err alreadyRunningMsg, st, none⟩ := by
  unfold startPetalsSeeder
  rw [h]
  rfl

/-- Witness for `start_already_running` at a concrete running state. -/
theorem start_already_running_witness :
    startPetalsSeeder .windows ⟨true, true, true, some [], true, 3⟩ "model-x"
      "tok-123" none ⟨some 5, some "model-x", some "tok-123", true, false, ["l1"]⟩ =
    ⟨.err alreadyRunningMsg,
     ⟨some 5, some "model-x", some "tok-123", true, false, ["l1"]⟩, none⟩ :=
  start_already_running .windows ⟨true, true, true, some [], true, 3⟩ "model-x"
    "tok-123" none ⟨some 5, some "model-x", some "tok-123", true, false, ["l1"]⟩ 5 rfl

/-- Claim C2, counterexample: the Linux branch of
`start_petals_seeder` has no provisioning gate.  Starting from the
fresh state, whose `wsl_setup_complete` and `macos_setup_complete`
flags are both false, the Linux call succeeds and spawns a worker
instead of being rejected, so the claimed rejection does not hold on
every platform variant. -/
theorem start_linux_no_provision_gate :
    PetalsState.new.wsl_setup_complete = false ∧
    PetalsState.new.macos_setup_complete = false ∧
    PetalsState.new.process = none ∧
    startPetalsSeeder .linux ⟨true, true, true, some [], true, 7⟩ "model-x"
      "tok-123" none PetalsState.new =
    ⟨.ok "Petals seeder started for model: model-x",
     ⟨some 7, some "model-x", some "tok-123", false, false, []⟩,
     some ⟨7, "model-x", "tok-123", some "cpu", none⟩⟩ :=
  ⟨rfl, rfl, rfl, rfl⟩

/-- Claim C2, amended: on the Windows branch a start with no worker
running and `wsl_setup_complete` false is rejected with the
not-provisioned error without spawning, and likewise on the macOS
branch for `macos_setup_complete`; the Linux branch performs no
provisioning check. -/
theorem start_not_provisioned (env : StartEnv) (m t : String)
    (hf : Option String) (st : PetalsState) (h : st.process = none) :
    (st.wsl_setup_complete = false →
      startPetalsSeeder .windows env m t hf st = ⟨.err wslNotSetupMsg, st, none⟩) ∧
    (st.macos_setup_complete = false →
      startPetalsSeeder .macos env m t hf st = ⟨.err macosNotSetupMsg, st, none⟩) := by
  constructor <;> intro hflag <;> unfold startPetalsSeeder <;> rw [h] <;>
    simp [hflag]

/-- Witness for `start_not_provisioned` at the fresh state. -/
theorem start_not_provisioned_witness :
    startPetalsSeeder .windows ⟨true, true, true, some [], true, 3⟩ "model-x"
      "tok-123" none PetalsState.new =
      ⟨.err wslNotSetupMsg, PetalsState.new, none⟩ ∧
    startPetalsSeeder .macos ⟨true, true, true, some [], true, 3⟩ "model-x"
      "tok-123" none PetalsState.new =
      ⟨.err macosNotSetupMsg, PetalsState.new, none⟩ :=
  ⟨(start_not_provisioned ⟨true, true, true, some [], true, 3⟩ "model-x"
      "tok-123" none PetalsState.new rfl).1 rfl,
   (start_not_provisioned ⟨true, true, true, some [], true, 3⟩ "model-x"
      "tok-123" none PetalsState.new rfl).2 rfl⟩

/-- Claim C4: the seeder log buffer never exceeds its capacity (200 for
stdout lines, 500 for the macOS stderr store), and eviction is strict
FIFO: after N+1 appends to an initially empty capacity-N buffer the
oldest line is gone and the N most recent remain in insertion order. -/
theorem log_buffer_bounded_fifo (cap : Nat) (logs : List String)
    (line : String) (ls : List String) :
    (logs.length ≤ cap → (pushLog cap logs line).length ≤ cap) ∧
    (ls.length = cap + 1 → List.foldl (pushLog cap) [] ls = ls.tail) ∧
    (logs.length ≤ 200 → (seederStdoutLogPush logs line).length ≤ 200) ∧
    (logs.length ≤ 500 → (seederStderrLogPush logs line).length ≤ 500) :=
  ⟨pushLog_length_le cap logs line,
   foldl_pushLog_evict_one cap ls,
   pushLog_length_le 200 logs line,
   pushLog_length_le 500 logs ("[STDERR] " ++ line)⟩

/-- Witness for `log_buffer_bounded_fifo` at capacity 2 and three
appended lines. -/
theorem log_buffer_bounded_fifo_witness :
    (pushLog 2 ["x", "y"] "z").length ≤ 2 ∧
    List.foldl (pushLog 2) [] ["a", "b", "c"] = ["b", "c"] ∧
    (seederStdoutLogPush ["x", "y"] "z").length ≤ 200 ∧
    (seederStderrLogPush ["x", "y"] "z").length ≤ 500 :=
  have h := log_buffer_bounded_fifo 2 ["x", "y"] "z" ["a", "b", "c"]
  ⟨h.1 (by decide), h.2.1 rfl, h.2.2.1 (by decide), h.2.2.2 (by decide)⟩

/-- Claim C7: with the vendor list containing an NVIDIA card the device
token handed to the worker is `cuda`; with an Intel-only list or no
GPUs it is `cpu`; matching is case-insensitive substring search for
nvidia, geforce, rtx, gtx, and the token flows into the spawned
argument vector on the Windows and Linux branches. -/
theorem device_selection :
    selectDevice (some ["NVIDIA GeForce RTX 3080"]) = "cuda" ∧
    selectDevice (some ["Intel UHD Graphics"]) = "cpu" ∧
    selectDevice (some []) = "cpu" ∧
    selectDevice none = "cpu" ∧
    gpuMatchesNvidia "GTX 1060" = true ∧
    gpuMatchesNvidia "gtx 1060" = true ∧
    gpuMatchesNvidia "AMD Radeon RX 580" = false ∧
    (startPetalsSeeder .linux ⟨true, true, true, some ["NVIDIA GeForce RTX 3080"], true, 9⟩
      "model-x" "tok-123" none PetalsState.new).spawned =
      some ⟨9, "model-x", "tok-123", some "cuda", none⟩ ∧
    (startPetalsSeeder .linux ⟨true, true, true, some ["Intel UHD Graphics"], true, 9⟩
      "model-x" "tok-123" none PetalsState.new).spawned =
      some ⟨9, "model-x", "tok-123", some "cpu", none⟩ ∧
    (startPetalsSeeder .windows ⟨true, true, true, some ["NVIDIA GeForce RTX 3080"], true, 9⟩
      "model-x" "tok-123" none
      ⟨none, none, none, true, false, []⟩).spawned =
      some ⟨9, "model-x", "tok-123", some "cuda", none⟩ :=
  ⟨rfl, rfl, rfl, rfl, rfl, rfl, by decide, rfl, rfl, rfl⟩

/-- Claim C9: stopping while no worker handle is stored returns the
not-running error, performs no process action, and leaves every session
field unchanged, on every platform. -/
theorem stop_not_running (plat : Platform) (env : StopEnv) (st : PetalsState)
    (h : st.process = none) :
    stopPetalsSeeder plat env st = some ⟨.err notRunningMsg, st, []⟩ := by
  unfold stopPetalsSeeder
  rw [h]

/-- Witness for `stop_not_running` at the fresh state. -/
theorem stop_not_running_witness :
    stopPetalsSeeder .windows ⟨none, none, .exited⟩ PetalsState.new =
      some ⟨.err notRunningMsg, PetalsState.new, []⟩ :=
  stop_not_running .windows ⟨none, none, .exited⟩ PetalsState.new rfl

/-- Claim C3: from any state satisfying the session invariant, every
completed operation yields a state in which the model id and credential
are present exactly when the handle is: the start operation (including
the successful start from idle, which sets all three fields together),
every stop that completes (at idle it returns the not-running error
unchanged, otherwise it clears everything), and the running query.  The
query answers true exactly when a handle is held and the poll does not
report an exit, and when a held process has exited on its own it lazily
clears handle, model id and credential while leaving the log buffer
alone. -/
theorem session_state_invariant (plat : Platform) (senv : StartEnv)
    (stenv : StopEnv) (tw : TryWait) (m t : String) (hf : Option String)
    (st : PetalsState) (hinv : stateInv st) :
    stateInv (startPetalsSeeder plat senv m t hf st).state ∧
    (∀ out, stopPetalsSeeder plat stenv st = some out → stateInv out.state) ∧
    stateInv (isPetalsSeederRunning tw st).state ∧
    ((isPetalsSeederRunning tw st).running = true ↔
      (st.process.isSome = true ∧ tw ≠ TryWait.exited)) ∧
    (st.process.isSome = true →
      ((isPetalsSeederRunning .exited st).state.process = none ∧
       (isPetalsSeederRunning .exited st).state.model_name = none ∧
       (isPetalsSeederRunning .exited st).state.node_token = none ∧
       (isPetalsSeederRunning .exited st).state.seeder_logs = st.seeder_logs)) := by
  refine ⟨?_, ?_, ?_, ?_, ?_⟩
  · rcases startState_cases plat senv m t hf st with h | h
    · rw [h]; exact hinv
    · rw [h]; exact stateInv_commitStart st senv.newPid m t
  · intro out hout
    rcases stopState_cases plat stenv st out hout with h | h
    · rw [h]; exact hinv
    · rw [h]; simp [stateInv]
  · unfold isPetalsSeederRunning
    cases hp : st.process with
    | none => exact hinv
    | some pid =>
      cases tw with
      | exited => simp [stateInv]
      | stillRunning => exact hinv
      | waitErr => exact hinv
  · unfold isPetalsSeederRunning
    cases hp : st.process with
    | none => simp
    | some pid => cases tw <;> simp
  · intro hps
    unfold isPetalsSeederRunning
    cases hp : st.process with
    | none => rw [hp] at hps; cases hps
    | some pid => exact ⟨rfl, rfl, rfl, rfl⟩

/-- Witness for `session_state_invariant`, applied both at the fresh
idle state (successful start establishing the invariant; stop at idle)
and at a concrete running Linux state (query answer, lazy clearing,
completed stop). -/
theorem session_state_invariant_witness :
    stateInv (startPetalsSeeder .linux ⟨true, true, true, some [], true, 9⟩
      "model-y" "tok-456" none PetalsState.new).state ∧
    stateInv (⟨.err notRunningMsg, PetalsState.new, []⟩ : StopOutcome).state ∧
    ((isPetalsSeederRunning .stillRunning PetalsState.new).running = true ↔
      (PetalsState.new.process.isSome = true ∧
        TryWait.stillRunning ≠ TryWait.exited)) ∧
    stateInv (startPetalsSeeder .linux ⟨true, true, true, some [], true, 9⟩
      "model-y" "tok-456" none
      ⟨some 5, some "model-x", some "tok-123", false, false, ["l1"]⟩).state ∧
    stateInv (⟨.ok stoppedMsg, ⟨none, none, none, false, false, []⟩,
      [.sigterm 5]⟩ : StopOutcome).state ∧
    stateInv (isPetalsSeederRunning .stillRunning
      ⟨some 5, some "model-x", some "tok-123", false, false, ["l1"]⟩).state ∧
    ((isPetalsSeederRunning .stillRunning
      ⟨some 5, some "model-x", some "tok-123", false, false, ["l1"]⟩).running = true ↔
      ((⟨some 5, some "model-x", some "tok-123", false, false, ["l1"]⟩ :
        PetalsState).process.isSome = true ∧
        TryWait.stillRunning ≠ TryWait.exited)) ∧
    ((isPetalsSeederRunning .exited
      ⟨some 5, some "model-x", some "tok-123", false, false, ["l1"]⟩).state.process = none ∧
     (isPetalsSeederRunning .exited
      ⟨some 5, some "model-x", some "tok-123", false, false, ["l1"]⟩).state.model_name = none ∧
     (isPetalsSeederRunning .exited
      ⟨some 5, some "model-x", some "tok-123", false, false, ["l1"]⟩).state.node_token = none ∧
     (isPetalsSeederRunning .exited
      ⟨some 5, some "model-x", some "tok-123", false, false, ["l1"]⟩).state.seeder_logs = ["l1"]) :=
  have hidle := session_state_invariant .linux ⟨true, true, true, some [], true, 9⟩
    ⟨none, none, .exited⟩ .stillRunning "model-y" "tok-456" none
    PetalsState.new ⟨rfl, rfl⟩
  have hrun := session_state_invariant .linux ⟨true, true, true, some [], true, 9⟩
    ⟨none, none, .exited⟩ .stillRunning "model-y" "tok-456" none
    ⟨some 5, some "model-x", some "tok-123", false, false, ["l1"]⟩ ⟨rfl, rfl⟩
  ⟨hidle.1,
   hidle.2.1 ⟨.err notRunningMsg, PetalsState.new, []⟩ rfl,
   hidle.2.2.2.1,
   hrun.1,
   hrun.2.1 ⟨.ok stoppedMsg, ⟨none, none, none, false, false, []⟩, [.sigterm 5]⟩ rfl,
   hrun.2.2.1,
   hrun.2.2.2.1,
   hrun.2.2.2.2 rfl⟩

/-- Claim C5, counterexample: when WSL is absent and the installation
fails, the workflow returns the installation error, which is not the
restart-required message and demands no restart, so the claim that a
`RestartRequired` error is returned regardless of install success is
false. -/
theorem setup_wsl_install_failure_returns_install_error :
    (setupWslEnvironment
      ⟨false, some (false, "access is denied"), "", true, true, "", true, true, "",
       true, true, ""⟩ PetalsState.new).result =
      .err "WSL installation failed: access is denied" ∧
    (setupWslEnvironment
      ⟨false, some (false, "access is denied"), "", true, true, "", true, true, "",
       true, true, ""⟩ PetalsState.new).result ≠ .err restartRequiredMsg ∧
    containsSub "WSL installation failed: access is denied" "restart" = false :=
  ⟨rfl, by decide, rfl⟩

/-- Claim C5, amended: in both provisioning workflows, when the WSL
check reports absent, installation is attempted exactly once, no
`complete` event is emitted, the session state (in particular the
provisioning flags) is untouched, and the call returns an error: the
restart-required message when the installation succeeds, and the
installation failure text when it does not. -/
theorem setup_wsl_absent_terminates (env : SetupEnv) (st : PetalsState)
    (msg : String) (h : env.wslInstalled = false) :
    (setupWslEnvironment env st).actions = [SetupAction.installWsl] ∧
    (setupWslEnvironmentClient env st).actions = [SetupAction.installWsl] ∧
    noCompleteEvent (setupWslEnvironment env st) = true ∧
    noCompleteEvent (setupWslEnvironmentClient env st) = true ∧
    (setupWslEnvironment env st).state = st ∧
    (setupWslEnvironmentClient env st).state = st ∧
    isErr (setupWslEnvironment env st).result = true ∧
    isErr (setupWslEnvironmentClient env st).result = true ∧
    (installWsl env = .ok () →
      (setupWslEnvironment env st).result = .err restartRequiredMsg ∧
      (setupWslEnvironmentClient env st).result = .err restartRequiredMsg) ∧
    (installWsl env = .error msg →
      (setupWslEnvironment env st).result = .err msg ∧
      (setupWslEnvironmentClient env st).result = .err msg) := by
  unfold setupWslEnvironment setupWslEnvironmentClient
  simp only [h, Bool.not_false, if_true]
  cases hi : installWsl env with
  | ok u =>
    cases u
    exact ⟨rfl, rfl, rfl, rfl, rfl, rfl, rfl, rfl,
      fun _ => ⟨rfl, rfl⟩, fun hc => absurd hc (by simp)⟩
  | error e =>
    refine ⟨rfl, rfl, rfl, rfl, rfl, rfl, rfl, rfl,
      fun hc => absurd hc (by simp), fun hc => ?_⟩
    injection hc with he
    rw [he]
    exact ⟨rfl, rfl⟩

/-- Witness for `setup_wsl_absent_terminates` with a succeeding
installation. -/
theorem setup_wsl_absent_terminates_witness :
    (setupWslEnvironment
      ⟨false, some (true, ""), "", true, true, "", true, true, "", true, true, ""⟩
      PetalsState.new).actions = [SetupAction.installWsl] ∧
    noCompleteEvent (setupWslEnvironment
      ⟨false, some (true, ""), "", true, true, "", true, true, "", true, true, ""⟩
      PetalsState.new) = true ∧
    (setupWslEnvironment
      ⟨false, some (true, ""), "", true, true, "", true, true, "", true, true, ""⟩
      PetalsState.new).state = PetalsState.new ∧
    (setupWslEnvironment
      ⟨false, some (true, ""), "", true, true, "", true, true, "", true, true, ""⟩
      PetalsState.new).result = .err restartRequiredMsg ∧
    (setupWslEnvironmentClient
      ⟨false, some (true, ""), "", true, true, "", true, true, "", true, true, ""⟩
      PetalsState.new).result = .err restartRequiredMsg :=
  have hthm := setup_wsl_absent_terminates
    ⟨false, some (true, ""), "", true, true, "", true, true, "", true, true, ""⟩
    PetalsState.new "x" rfl
  ⟨hthm.1, hthm.2.2.1, hthm.2.2.2.2.1, (hthm.2.2.2.2.2.2.2.2.1 rfl).1,
   (hthm.2.2.2.2.2.2.2.2.1 rfl).2⟩

/-- Claim C6, counterexample: the clock-desync special case exists only
in the Windows stdout reader; the macOS and Linux readers classify a
line containing the time-sync marker by the generic rules alone, so
they emit no clock-desync error event: the classification does not
hold on every platform branch of the stdout reader. -/
theorem time_error_line_generic_on_mac_linux :
    classifyStdoutMacLinux "local time must be within 2 minutes" =
      [.log "local time must be within 2 minutes"] ∧
    PetalsEvent.error timeSyncErrorMsg ∉
      classifyStdoutMacLinux "local time must be within 2 minutes" ∧
    classifyStdoutWindows "local time must be within 2 minutes" =
      [.log "local time must be within 2 minutes", .error timeSyncErrorMsg] :=
  ⟨rfl, by decide, rfl⟩

/-- Claim C6, amended: the literal line `Connecting to the DHT...`
produces the `connecting` progress event on every stdout-reader branch;
the clock-desync special case holds on the Windows branch only, where a
line containing the time-sync marker yields the dedicated remediation
message in place of the generic error payload. -/
theorem stdout_classification (line : String)
    (h : containsSub line "local time must be within" = true) :
    classifyStdoutWindows "Connecting to the DHT..." =
      [.progress "connecting" "Connecting to Petals network...",
       .log "Connecting to the DHT..."] ∧
    classifyStdoutMacLinux "Connecting to the DHT..." =
      [.progress "connecting" "Connecting to Petals network...",
       .log "Connecting to the DHT..."] ∧
    classifyStdoutWindows line =
      progressEvents line ++ [.log line] ++ [.error timeSyncErrorMsg] ++
        (if isSuccessLine line then [.success "Model loaded successfully"] else []) := by
  have hte : isTimeErrorLine line = true := by
    unfold isTimeErrorLine
    rw [h]
    rfl
  exact ⟨rfl, rfl, by simp [classifyStdoutWindows, hte]⟩

/-- Witness for `stdout_classification` at the literal time-sync
line. -/
theorem stdout_classification_witness :
    classifyStdoutWindows "Connecting to the DHT..." =
      [.progress "connecting" "Connecting to Petals network...",
       .log "Connecting to the DHT..."] ∧
    classifyStdoutWindows "local time must be within 2 minutes" =
      progressEvents "local time must be within 2 minutes" ++
        [.log "local time must be within 2 minutes"] ++
        [.error timeSyncErrorMsg] ++
        (if isSuccessLine "local time must be within 2 minutes" then
          [.success "Model loaded successfully"] else []) :=
  have hthm := stdout_classification "local time must be within 2 minutes" rfl
  ⟨hthm.1, hthm.2.2⟩

/-- Claim C8: two consecutive `run_petals_inference` calls with no
intervening stop kill and reap the first process before spawning the
second; afterwards exactly the second handle is stored and only the
second stdout is attached as an event source. -/
theorem inference_supersede (plat : Platform) (e1 e2 : InferenceEnv)
    (h1 : infEnvOk e1 = true) (h2 : infEnvOk e2 = true) :
    (runPetalsInference plat e1 none).state = some e1.newPid ∧
    (runPetalsInference plat e2 (runPetalsInference plat e1 none).state).state =
      some e2.newPid ∧
    (runPetalsInference plat e2 (runPetalsInference plat e1 none).state).actions =
      [.killProc e1.newPid, .waitProc e1.newPid,
       .spawnProc e2.newPid, .attachStdout e2.newPid] ∧
    (runPetalsInference plat e2 (runPetalsInference plat e1 none).state).result =
      .ok "Inference started" := by
  simp only [infEnvOk, Bool.and_eq_true] at h1 h2
  obtain ⟨⟨⟨⟨⟨hr1, hs1⟩, hrd1⟩, hc1⟩, hch1⟩, hsp1⟩ := h1
  obtain ⟨⟨⟨⟨⟨hr2, hs2⟩, hrd2⟩, hc2⟩, hch2⟩, hsp2⟩ := h2
  cases plat <;>
    simp [runPetalsInference, supersedeActions,
      hr1, hs1, hrd1, hc1, hch1, hsp1, hr2, hs2, hrd2, hc2, hch2, hsp2]

/-- Witness for `inference_supersede` with two concrete macOS calls. -/
theorem inference_supersede_witness :
    (runPetalsInference .macos ⟨true, true, true, true, true, true, 1⟩ none).state =
      some 1 ∧
    (runPetalsInference .macos ⟨true, true, true, true, true, true, 2⟩
      (runPetalsInference .macos ⟨true, true, true, true, true, true, 1⟩ none).state).state =
      some 2 ∧
    (runPetalsInference .macos ⟨true, true, true, true, true, true, 2⟩
      (runPetalsInference .macos ⟨true, true, true, true, true, true, 1⟩ none).state).actions =
      [.killProc 1, .waitProc 1, .spawnProc 2, .attachStdout 2] ∧
    (runPetalsInference .macos ⟨true, true, true, true, true, true, 2⟩
      (runPetalsInference .macos ⟨true, true, true, true, true, true, 1⟩ none).state).result =
      .ok "Inference started" :=
  inference_supersede .macos ⟨true, true, true, true, true, true, 1⟩
    ⟨true, true, true, true, true, true, 2⟩ rfl rfl

/-- Claim C10: on the Windows branch, a stop with a worker and a stored
token builds its inner-process lookup from the first 12 bytes of the
token; the call completes without panicking exactly when byte offset 12
is a character boundary of the token, and in particular every token
shorter than 12 bytes makes the call panic rather than return an
error. -/
theorem stop_token_slice_boundary (env : StopEnv) (st : PetalsState)
    (pid : Nat) (t : String)
    (hp : st.process = some pid) (ht : st.node_token = some t) :
    ((stopPetalsSeeder .windows env st).isSome = true ↔
      isCharBoundary t 12 = true) ∧
    (utf8Len t < 12 → stopPetalsSeeder .windows env st = none) ∧
    (isCharBoundary t 12 = true →
      stopUsesFrag (stopPetalsSeeder .windows env st) (takeBytes t 12) = true) := by
  have hshort : utf8Len t < 12 → isCharBoundary t 12 = false := fun hl =>
    charBoundaryAux_false_of_short t.data 12 hl
  have heq : stopPetalsSeeder .windows env st =
      if isCharBoundary t 12 then
        some ⟨.ok stoppedMsg,
          { st with process := none, model_name := none, node_token := none,
                    seeder_logs := [] },
          wslGracefulStop (takeBytes t 12) env.pgrepAfterTerm ++
            [.killWrapper pid] ++ waitLoopActions pid env.waitOutcome ++
            wslVerifyStop (takeBytes t 12) env.pgrepVerify⟩
      else none := by
    unfold stopPetalsSeeder
    rw [hp, ht]
  rw [heq]
  by_cases hb : isCharBoundary t 12 = true
  · rw [if_pos hb]
    refine ⟨by simp [hb], fun hl => absurd hb (by simp [hshort hl]), fun _ => ?_⟩
    simp [stopUsesFrag, wslGracefulStop]
  · rw [if_neg hb]
    have hb2 : isCharBoundary t 12 = false := by
      revert hb
      cases isCharBoundary t 12 <;> simp
    exact ⟨by simp [hb2], fun _ => rfl, fun hcb => absurd hcb hb⟩

/-- Witness for `stop_token_slice_boundary`: a 12-byte token is sliced
without panic and drives the `pkill` pattern; an 8-byte token makes the
call panic. -/
theorem stop_token_slice_boundary_witness :
    ((stopPetalsSeeder .windows ⟨none, none, .exited⟩
        ⟨some 4, some "model-x", some "tok-123-abcd", true, false, []⟩).isSome = true ↔
      isCharBoundary "tok-123-abcd" 12 = true) ∧
    stopUsesFrag (stopPetalsSeeder .windows ⟨none, none, .exited⟩
        ⟨some 4, some "model-x", some "tok-123-abcd", true, false, []⟩)
      (takeBytes "tok-123-abcd" 12) = true ∧
    stopPetalsSeeder .windows ⟨none, none, .exited⟩
        ⟨some 4, some "model-x", some "shorttok", true, false, []⟩ = none :=
  have hlong := stop_token_slice_boundary ⟨none, none, .exited⟩
    ⟨some 4, some "model-x", some "tok-123-abcd", true, false, []⟩ 4
    "tok-123-abcd" rfl rfl
  have hshort := stop_token_slice_boundary ⟨none, none, .exited⟩
    ⟨some 4, some "model-x", some "shorttok", true, false, []⟩ 4
    "shorttok" rfl rfl
  ⟨hlong.1, hlong.2.2 (by decide), hshort.2.1 (by decide)⟩

end Torbiz
